import Mathlib

/-!
Shallow embedding of the `therapydrift` drift checker
(`src/therapydrift/specs.py`, `src/therapydrift/drift.py`,
`src/therapydrift/cli.py`) together with theorems settling the
behavioural claims about it.

Modelling conventions:
* Python `datetime` instants are modelled as `Int` (seconds); the
  fallible ISO-8601 parse of a timestamp string is modelled by the
  inductive `Ts`: `Ts.valid t` stands for a string that parses to the
  instant `t`, `Ts.invalid` for a non-empty string that fails to parse.
  A missing / empty timestamp is `Option.none`.  `timedelta(hours=1)`
  is `3600`, `timedelta(hours=24)` is `86400` seconds.
* Python dicts keyed by task id are association lists
  `List (String × _)`; `dict.values()` is `List.map Prod.snd`.
* Log lists may hold non-record entries (skipped by the code); these
  are the `none` elements of `List (Option LogEntry)`.
-/

namespace Therapydrift

/-- Outcome of parsing one timestamp string: `valid t` is a string that
`datetime.fromisoformat` turns into the instant `t`, `invalid` a
non-empty string it raises on. -/
inductive Ts where
  | valid (t : Int)
  | invalid
deriving DecidableEq, Repr

/-- `_parse_ts` of `drift.py`/`cli.py`: `None`/empty and unparseable
values go to `none`, otherwise the parsed instant. -/
def parse_ts : Option Ts → Option Int
  | some (Ts.valid t) => some t
  | _ => none

/-- One well-formed log record `{message, timestamp}`. -/
structure LogEntry where
  message : String
  timestamp : Option Ts
deriving DecidableEq, Repr

/-- A task record as read from the task store (`§6`): id, title,
status, ordered log, blocked-by list. -/
structure Task where
  id : String
  title : String
  status : String
  blocked_by : List String
  log : List (Option LogEntry)
deriving Repr

/-- `TherapydriftSpec` of `specs.py`. -/
structure TherapydriftSpec where
  schema : Int
  min_signal_count : Int
  followup_prefixes : List String
  require_recovery_plan : Bool
  ignore_signal_prefixes : List String
  cooldown_seconds : Int
  max_auto_actions_per_hour : Int
  min_new_signals : Int
  circuit_breaker_after : Int
deriving DecidableEq, Repr

/-- A raw configuration mapping for `TherapydriftSpec.from_raw`:
each field either absent (`none`) or present with a typed value. -/
structure RawSpec where
  schema : Option Int := none
  min_signal_count : Option Int := none
  followup_prefixes : Option (List String) := none
  require_recovery_plan : Option Bool := none
  ignore_signal_prefixes : Option (List String) := none
  cooldown_seconds : Option Int := none
  max_auto_actions_per_hour : Option Int := none
  min_new_signals : Option Int := none
  circuit_breaker_after : Option Int := none
deriving Repr

/-- Python `raw.get(key, default)`. -/
def getD {α : Type} (v : Option α) (default : α) : α := v.getD default

/-- Python `(raw.get(key) or default)` on a list value: `None` and the
empty list both fall back to the default. -/
def getListOr (v : Option (List String)) (default : List String) : List String :=
  match v with
  | none => default
  | some l => if l = [] then default else l

/-- `TherapydriftSpec.from_raw` of `specs.py`, lines 43-74. -/
def TherapydriftSpec.from_raw (raw : RawSpec) : TherapydriftSpec :=
  let schema := getD raw.schema 1
  let min_signal_count := getD raw.min_signal_count 2
  let min_signal_count := if min_signal_count < 1 then 1 else min_signal_count
  let followup_prefixes := getListOr raw.followup_prefixes ["drift-", "speedrift-pit-"]
  let require_recovery_plan := getD raw.require_recovery_plan true
  let ignore_signal_prefixes := getListOr raw.ignore_signal_prefixes ["Therapydrift:"]
  let cooldown_seconds := getD raw.cooldown_seconds 1800
  let cooldown_seconds := if cooldown_seconds < 0 then 0 else cooldown_seconds
  let max_auto_actions_per_hour := getD raw.max_auto_actions_per_hour 2
  let max_auto_actions_per_hour :=
    if max_auto_actions_per_hour < 0 then 0 else max_auto_actions_per_hour
  let min_new_signals := getD raw.min_new_signals 1
  let min_new_signals := if min_new_signals < 0 then 0 else min_new_signals
  let circuit_breaker_after := getD raw.circuit_breaker_after 6
  let circuit_breaker_after := if circuit_breaker_after < 1 then 1 else circuit_breaker_after
  { schema := schema
    min_signal_count := min_signal_count
    followup_prefixes := followup_prefixes
    require_recovery_plan := require_recovery_plan
    ignore_signal_prefixes := ignore_signal_prefixes
    cooldown_seconds := cooldown_seconds
    max_auto_actions_per_hour := max_auto_actions_per_hour
    min_new_signals := min_new_signals
    circuit_breaker_after := circuit_breaker_after }

/-- `Finding` of `drift.py`.  The structured `details` payloads that
the code attaches are modelled by the `Details` inductive below. -/
inductive Details where
  | recent_signals (sigs : List LogEntry)
  | tasks (ids : List String)
  | expected_task_id (id : String)
deriving DecidableEq, Repr

structure Finding where
  kind : String
  severity : String
  summary : String
  details : Option Details := none
deriving DecidableEq, Repr

/-- `_DRIFT_PREFIXES` of `drift.py`, lines 18-26. -/
def DRIFT_PREFIXES : List String :=
  ["Coredrift:", "Speedrift:", "Specdrift:", "Datadrift:", "Depsdrift:", "Uxdrift:",
   "Therapydrift:"]

/-- Python `str.startswith(p)` over code points (the builtin
`String.startsWith` is opaque to kernel reduction, so this computes on
the character lists). -/
def str_startsWith (s p : String) : Bool := p.toList.isPrefixOf s.toList

/-- The signal-extraction loop of `compute_therapy_drift`
(`drift.py` lines 57-74): returns the kept drift signals (message and
timestamp, in log order) and the ignored-self-signal count. -/
def extract_signals (ignore_signal_prefixes : List String) :
    List (Option LogEntry) → List LogEntry × Nat
  | [] => ([], 0)
  | none :: rest => extract_signals ignore_signal_prefixes rest
  | some e :: rest =>
    let r := extract_signals ignore_signal_prefixes rest
    if ¬ DRIFT_PREFIXES.any (fun p => str_startsWith e.message p) then r
    else if ignore_signal_prefixes.any (fun p => str_startsWith e.message p) then (r.1, r.2 + 1)
    else (⟨e.message, e.timestamp⟩ :: r.1, r.2)

/-- `_task_status` / membership test of `drift.py` line 81. -/
def is_open_status (s : String) : Bool := s = "open" ∨ s = "in-progress"

/-- The follow-up collection loop of `compute_therapy_drift`
(`drift.py` lines 76-86), before `sorted(set(...))`: one id per
qualifying record of `tasks.values()`, in iteration order. -/
def open_followups_raw (task_id : String) (followup_prefixes : List String)
    (tasks : List (String × Task)) : List String :=
  (tasks.map Prod.snd).filterMap fun t =>
    if t.id = "" ∨ t.id = task_id then none
    else if ¬ is_open_status t.status then none
    else if task_id ∉ t.blocked_by then none
    else if followup_prefixes.any (fun p => str_startsWith t.id p) then some t.id
    else none

/-- Decidability of the lexicographic `String` order through the
character lists (the builtin `String.decidableLE` is opaque to kernel
reduction; this instance evaluates). -/
def strLEDec : DecidableRel ((· ≤ ·) : String → String → Prop) :=
  fun a b => decidable_of_iff (a.toList ≤ b.toList) String.le_iff_toList_le.symm

/-- `sorted(set(xs))` on strings (`drift.py` line 87): the distinct
elements in ascending lexicographic order. -/
def sorted_set (xs : List String) : List String :=
  @List.insertionSort String (· ≤ ·) strLEDec xs.dedup

/-- The `latest_signal_dt` loop (`drift.py` lines 89-95): running max
of the parseable signal timestamps. -/
def latest_signal_dt (sigs : List LogEntry) : Option Int :=
  sigs.foldl
    (fun acc s =>
      match parse_ts s.timestamp with
      | none => acc
      | some parsed =>
        match acc with
        | none => some parsed
        | some m => if parsed > m then some parsed else some m)
    none

/-- The `new_signal_count` computation (`drift.py` lines 97-105). -/
def new_signal_count_of (sigs : List LogEntry) (previous_latest_signal_ts : Option Ts) : Nat :=
  match parse_ts previous_latest_signal_ts with
  | none => sigs.length
  | some prev =>
    sigs.countP fun s =>
      match parse_ts s.timestamp with
      | some parsed => parsed > prev
      | none => false

/-- The telemetry mapping built by `compute_therapy_drift`
(`drift.py` lines 107-114 and 153).  `latest_signal_ts` holds the
isoformat of the latest parsed instant, i.e. a string parsing back to
it, or `None`. -/
structure Telemetry where
  drift_signal_count : Nat
  new_signal_count : Nat
  ignored_self_signals : Nat
  open_drift_followups : Nat
  open_followup_ids : List String
  latest_signal_ts : Option Ts
  therapy_task_exists : Bool
deriving DecidableEq, Repr

structure Recommendation where
  priority : String
  action : String
  rationale : String
deriving DecidableEq, Repr

/-- The report returned by `compute_therapy_drift` (`drift.py`
lines 209-217). -/
structure Report where
  task_id : String
  task_title : String
  score : String
  spec : TherapydriftSpec
  telemetry : Telemetry
  findings : List Finding
  recommendations : List Recommendation
deriving Repr

/-- Python `lst[-5:]`. -/
def lastN {α : Type} (n : Nat) (l : List α) : List α := l.drop (l.length - n)

/-- The de-duplication of recommendations by `action`, keeping the
first occurrence (`drift.py` lines 206-207). -/
def dedup_by_action : List Recommendation → List String → List Recommendation
  | [], _ => []
  | r :: rest, seen =>
    if r.action ∈ seen then dedup_by_action rest seen
    else r :: dedup_by_action rest (r.action :: seen)

/-- The recovery-task existence test of `compute_therapy_drift`
(`drift.py` lines 147-152): a record stored under the key
`therapy_task_id` whose status is open/in-progress/done. -/
def therapy_exists_of (tasks : List (String × Task)) (therapy_task_id : String) : Bool :=
  match tasks.lookup therapy_task_id with
  | some t => t.status = "open" ∨ t.status = "in-progress" ∨ t.status = "done"
  | none => false

/-- The findings accumulation of `compute_therapy_drift` (`drift.py`
lines 116-163): the four rules appended in source order. -/
def findings_of (spec : TherapydriftSpec) (drift_signals : List LogEntry)
    (open_followups : List String) (therapy_task_id : String)
    (therapy_exists : Bool) : List Finding :=
  let findings : List Finding :=
    if spec.schema ≠ 1 then
      [{ kind := "unsupported_schema", severity := "warn",
         summary := "Unsupported therapydrift schema (expected 1)" }]
    else []
  let findings :=
    if (drift_signals.length : Int) ≥ spec.min_signal_count then
      findings ++
        [{ kind := "repeated_drift_signals", severity := "warn",
           summary := "Task has repeated drift signals",
           details := some (Details.recent_signals (lastN 5 drift_signals)) }]
    else findings
  let findings :=
    if open_followups ≠ [] then
      findings ++
        [{ kind := "unresolved_drift_followups", severity := "warn",
           summary := "Task has unresolved drift follow-up tasks",
           details := some (Details.tasks (open_followups.take 20)) }]
    else findings
  if spec.require_recovery_plan ∧ findings ≠ [] ∧ ¬ therapy_exists then
    findings ++
      [{ kind := "missing_recovery_plan", severity := "warn",
         summary := "No therapy recovery task exists for this drifting task",
         details := some (Details.expected_task_id therapy_task_id) }]
  else findings

/-- The sequential score assignment of `compute_therapy_drift`
(`drift.py` lines 165-169). -/
def score_of (findings : List Finding) : String :=
  let score := "green"
  let score := if findings.any (fun f => f.severity = "warn") then "yellow" else score
  if findings.any (fun f => f.severity = "error") then "red" else score

/-- The recommendation construction of `compute_therapy_drift`
(`drift.py` lines 171-207): fixed per-kind entries, then de-duplicated
by action text keeping first occurrences. -/
def recommendations_of (findings : List Finding) (therapy_task_id : String) :
    List Recommendation :=
  let recommendations : List Recommendation :=
    findings.filterMap fun f =>
      if f.kind = "repeated_drift_signals" then
        some { priority := "high",
               action := "Run a self-healing cycle: tighten touch scope and split hardening work",
               rationale := "Repeated drift signals indicate intent is not staying synchronized with execution." }
      else if f.kind = "unresolved_drift_followups" then
        some { priority := "high",
               action := "Resolve or re-scope open drift follow-up tasks before adding new scope",
               rationale := "Stacking unresolved follow-ups compounds execution drift over time." }
      else if f.kind = "missing_recovery_plan" then
        some { priority := "high",
               action := "Create and complete " ++ therapy_task_id ++ " to consolidate remediation",
               rationale := "A dedicated recovery lane prevents drift fixes from bloating the current task." }
      else if f.kind = "unsupported_schema" then
        some { priority := "high",
               action := "Set therapydrift schema = 1",
               rationale := "Only schema v1 is currently supported." }
      else none
  dedup_by_action recommendations []

/-- `compute_therapy_drift` of `drift.py`, lines 46-217. -/
def compute_therapy_drift (task_id task_title : String) (spec : TherapydriftSpec)
    (task : Task) (tasks : List (String × Task))
    (previous_latest_signal_ts : Option Ts) : Report :=
  let extracted := extract_signals spec.ignore_signal_prefixes task.log
  let drift_signals := extracted.1
  let ignored_self_signals := extracted.2
  let open_followups := sorted_set (open_followups_raw task_id spec.followup_prefixes tasks)
  let latest := latest_signal_dt drift_signals
  let new_signal_count := new_signal_count_of drift_signals previous_latest_signal_ts
  let therapy_task_id := "drift-therapy-" ++ task_id
  let therapy_exists := therapy_exists_of tasks therapy_task_id
  let findings := findings_of spec drift_signals open_followups therapy_task_id therapy_exists
  let score := score_of findings
  let recommendations := recommendations_of findings therapy_task_id
  { task_id := task_id
    task_title := task_title
    score := score
    spec := spec
    telemetry :=
      { drift_signal_count := drift_signals.length
        new_signal_count := new_signal_count
        ignored_self_signals := ignored_self_signals
        open_drift_followups := open_followups.length
        open_followup_ids := open_followups.take 50
        latest_signal_ts := latest.map Ts.valid
        therapy_task_exists := therapy_exists }
    findings := findings
    recommendations := recommendations }

/-- The per-task automation state record persisted in
`.therapydrift/state.json` (fields read/written by `cli.py`).
A missing entry is `TaskState.empty`. -/
structure TaskState where
  last_check_ts : Option Ts := none
  latest_signal_ts : Option Ts := none
  drift_signal_count : Int := 0
  open_followup_ids : List String := []
  auto_action_timestamps : List Ts := []
  auto_action_total : Int := 0
  circuit_breaker_open : Bool := false
deriving DecidableEq, Repr

def TaskState.empty : TaskState := {}

/-- The decision record returned by `_evaluate_auto_action_policy`
(`cli.py` lines 103-112). -/
structure PolicyDecision where
  allow_auto_action : Bool
  reason : String
  has_actionable_findings : Bool
  new_signal_count : Nat
  open_followups_changed : Bool
  recent_action_count_1h : Nat
  cooldown_active : Bool
  circuit_breaker_open : Bool
deriving DecidableEq, Repr

def actionable_kinds : List String :=
  ["repeated_drift_signals", "unresolved_drift_followups", "missing_recovery_plan"]

/-- `_evaluate_auto_action_policy` of `cli.py`, lines 56-112.  The
policy only reads `new_signal_count` and `open_followup_ids` from the
telemetry; `now` is the current instant in seconds. -/
def evaluate_auto_action_policy (spec : TherapydriftSpec) (findings : List Finding)
    (telemetry : Telemetry) (task_state : TaskState) (now : Int) : PolicyDecision :=
  let kinds := findings.map (fun f => f.kind)
  let has_actionable_findings := kinds.any (fun k => k ∈ actionable_kinds)
  let action_dts := task_state.auto_action_timestamps.filterMap (fun x => parse_ts (some x))
  let one_hour_ago := now - 3600
  let recent_actions := action_dts.filter (fun dt => dt ≥ one_hour_ago)
  let last_action_dt := action_dts.max?
  let total_actions := task_state.auto_action_total
  let circuit_breaker_open : Bool := total_actions ≥ spec.circuit_breaker_after
  let cooldown_active : Bool :=
    match last_action_dt with
    | some last => spec.cooldown_seconds > 0 ∧ now - last < spec.cooldown_seconds
    | none => false
  let prev_followups := task_state.open_followup_ids.toFinset
  let cur_followups := telemetry.open_followup_ids.toFinset
  let open_followups_changed : Bool := cur_followups ≠ prev_followups
  let new_signal_count := telemetry.new_signal_count
  let has_new_evidence : Bool :=
    (new_signal_count : Int) ≥ spec.min_new_signals ∨ open_followups_changed
  let ar : Bool × String :=
    if has_actionable_findings then
      if circuit_breaker_open then (false, "circuit_breaker_open")
      else if spec.max_auto_actions_per_hour = 0 then (false, "hourly_budget_disabled")
      else if (recent_actions.length : Int) ≥ spec.max_auto_actions_per_hour then
        (false, "hourly_budget_exhausted")
      else if cooldown_active then (false, "cooldown_active")
      else if ¬ has_new_evidence then (false, "no_new_evidence")
      else (true, "allowed")
    else (false, "no_actionable_findings")
  { allow_auto_action := ar.1
    reason := ar.2
    has_actionable_findings := has_actionable_findings
    new_signal_count := new_signal_count
    open_followups_changed := open_followups_changed
    recent_action_count_1h := recent_actions.length
    cooldown_active := cooldown_active
    circuit_breaker_open := circuit_breaker_open }

/-- The body of `_update_automation_state` (`cli.py` lines 125-148)
acting on one task's state record `cur`. -/
def update_task_state (cur : TaskState) (telemetry : Telemetry) (policy : PolicyDecision)
    (action_created : Bool) (now : Int) : TaskState :=
  let cur := { cur with last_check_ts := some (Ts.valid now) }
  let cur :=
    match telemetry.latest_signal_ts with
    | some ts => { cur with latest_signal_ts := some ts }
    | none => cur
  let cur := { cur with drift_signal_count := (telemetry.drift_signal_count : Int) }
  let cur := { cur with open_followup_ids := telemetry.open_followup_ids }
  let day_ago := now - 86400
  let kept := cur.auto_action_timestamps.filter fun ts =>
    match parse_ts (some ts) with
    | some dt => dt ≥ day_ago
    | none => false
  { cur with
    auto_action_timestamps := if action_created then kept ++ [Ts.valid now] else kept
    auto_action_total :=
      if action_created then cur.auto_action_total + 1 else cur.auto_action_total
    circuit_breaker_open := policy.circuit_breaker_open }

/-- `_update_automation_state` of `cli.py`, lines 115-149, on the
whole state mapping (`state["tasks"]`): fetch-or-create the record for
`task_id`, update it, store it back under `task_id`. -/
def update_automation_state (state : List (String × TaskState)) (task_id : String)
    (telemetry : Telemetry) (policy : PolicyDecision) (action_created : Bool)
    (now : Int) : List (String × TaskState) :=
  let cur := (state.lookup task_id).getD TaskState.empty
  let cur := update_task_state cur telemetry policy action_created now
  (task_id, cur) :: state.eraseP (fun kv => kv.1 = task_id)

/-- The outcome of the TOML fence extraction + parse performed by
`cmd_wg_check` on the task description (`extract_therapydrift_spec`
and `parse_therapydrift_spec` are external collaborators per the
spec): no fenced block, a block that fails to parse, or a parsed raw
mapping. -/
inductive SpecBlock where
  | absent
  | malformed
  | parsed (raw : RawSpec)

/-- What one `cmd_wg_check` invocation produced, ignoring printing:
the report's score and findings, the policy decision if the policy was
evaluated, whether a follow-up action fired, the resulting automation
state, and the exit code. -/
structure CheckResult where
  score : String
  findings : List Finding
  policy : Option PolicyDecision
  action_created : Bool
  state : List (String × TaskState)
  exit_code : Int
deriving Repr

/-- `_maybe_create_followups` of `cli.py`, lines 196-233: whether the
follow-up task gets created. -/
def maybe_create_followups (report : Report) (policy : PolicyDecision) : Bool :=
  if ¬ policy.allow_auto_action then false
  else if report.findings = [] then false
  else true

/-- `cmd_wg_check` of `cli.py`, lines 243-357, with the external
collaborators (task store, TOML parse, clock, file/log sinks)
abstracted into arguments: `block` is the parse outcome of the task's
description, `tasks` the store contents, `state` the persisted
automation state (`state["tasks"]`), `now` the clock reading,
`create_followups` the CLI flag. -/
def cmd_wg_check (block : SpecBlock) (task_id : String) (task : Task)
    (tasks : List (String × Task)) (state : List (String × TaskState))
    (now : Int) (create_followups : Bool) : CheckResult :=
  match block with
  | SpecBlock.absent =>
    { score := "green", findings := [], policy := none, action_created := false,
      state := state, exit_code := 0 }
  | SpecBlock.malformed =>
    { score := "yellow",
      findings :=
        [{ kind := "invalid_therapydrift_spec", severity := "warn",
           summary := "therapydrift block present but could not be parsed" }],
      policy := none, action_created := false, state := state, exit_code := 3 }
  | SpecBlock.parsed raw =>
    let spec := TherapydriftSpec.from_raw raw
    let task_state := (state.lookup task_id).getD TaskState.empty
    let previous_latest_signal_ts := task_state.latest_signal_ts
    let report :=
      compute_therapy_drift task_id task.title spec task tasks previous_latest_signal_ts
    let policy := evaluate_auto_action_policy spec report.findings report.telemetry task_state now
    let action_created := if create_followups then maybe_create_followups report policy else false
    let state := update_automation_state state task_id report.telemetry policy action_created now
    { score := report.score, findings := report.findings, policy := some policy,
      action_created := action_created, state := state,
      exit_code := if report.findings ≠ [] then 3 else 0 }

/-! ## Concrete sample inputs used by witness instantiations -/

def sampleFinding (k : String) : Finding :=
  { kind := k, severity := "warn", summary := "" }

def sampleTelemetry (nsc : Nat) (ids : List String) : Telemetry :=
  { drift_signal_count := nsc, new_signal_count := nsc, ignored_self_signals := 0,
    open_drift_followups := ids.length, open_followup_ids := ids,
    latest_signal_ts := none, therapy_task_exists := false }

def sampleTask (log : List (Option LogEntry)) : Task :=
  { id := "t1", title := "Task", status := "in-progress", blocked_by := [], log := log }

def sampleEntry (msg : String) (t : Int) : Option LogEntry :=
  some { message := msg, timestamp := some (Ts.valid t) }

/-- Concrete task for the C4 witness: two distinct-category drift
signals, none ignored. -/
def c4task : Task :=
  sampleTask [sampleEntry "Coredrift: yellow (scope_drift)" 36000,
    sampleEntry "Specdrift: yellow (spec_not_updated)" 36300]

def c4spec : TherapydriftSpec :=
  TherapydriftSpec.from_raw { schema := some 1, min_signal_count := some 2 }

def c4finding : Finding :=
  { kind := "repeated_drift_signals", severity := "warn",
    summary := "Task has repeated drift signals",
    details := some (Details.recent_signals
      [{ message := "Coredrift: yellow (scope_drift)", timestamp := some (Ts.valid 36000) },
       { message := "Specdrift: yellow (spec_not_updated)", timestamp := some (Ts.valid 36300) }]) }

/-- The auto-action decision chain exactly as the specification words
it (spec §4.4 / claim C1): deny `no_actionable_findings` when no
current finding's kind is actionable; otherwise first matching rule of
circuit breaker, disabled hourly budget, exhausted hourly budget,
cooldown, no-new-evidence; otherwise allow. -/
def policy_decision_per_spec (spec : TherapydriftSpec) (findings : List Finding)
    (telemetry : Telemetry) (task_state : TaskState) (now : Int) : Bool × String :=
  let parsed := task_state.auto_action_timestamps.filterMap fun x => parse_ts (some x)
  if ¬ (findings.any fun f =>
      f.kind = "repeated_drift_signals" ∨ f.kind = "unresolved_drift_followups" ∨
      f.kind = "missing_recovery_plan") then
    (false, "no_actionable_findings")
  else if task_state.auto_action_total ≥ spec.circuit_breaker_after then
    (false, "circuit_breaker_open")
  else if spec.max_auto_actions_per_hour = 0 then
    (false, "hourly_budget_disabled")
  else if ((parsed.filter fun dt => dt ≥ now - 3600).length : Int) ≥
      spec.max_auto_actions_per_hour then
    (false, "hourly_budget_exhausted")
  else if parsed.max?.any fun last =>
      decide (spec.cooldown_seconds > 0) && decide (now - last < spec.cooldown_seconds) then
    (false, "cooldown_active")
  else if (telemetry.new_signal_count : Int) < spec.min_new_signals ∧
      telemetry.open_followup_ids.toFinset = task_state.open_followup_ids.toFinset then
    (false, "no_new_evidence")
  else (true, "allowed")

/-- Concrete prior state for the C2 counterexample: latest seen
signal at instant 100. -/
def c2cur : TaskState := { latest_signal_ts := some (Ts.valid 100) }

/-- Concrete current telemetry for the C2 counterexample: the current
evaluation's latest signal timestamp parses to the older instant 50. -/
def c2tel : Telemetry :=
  { drift_signal_count := 1, new_signal_count := 0, ignored_self_signals := 0,
    open_drift_followups := 0, open_followup_ids := [],
    latest_signal_ts := some (Ts.valid 50), therapy_task_exists := false }

def c2pol : PolicyDecision :=
  { allow_auto_action := false, reason := "no_actionable_findings",
    has_actionable_findings := false, new_signal_count := 0,
    open_followups_changed := false, recent_action_count_1h := 0,
    cooldown_active := false, circuit_breaker_open := false }

/-- Configuration for the C5 counterexample: an ignore prefix that is
not one of the recognized drift-category message heads. -/
def c5spec : TherapydriftSpec :=
  TherapydriftSpec.from_raw { ignore_signal_prefixes := some ["Selfcheck:"] }

def c5task : Task :=
  sampleTask [some { message := "Selfcheck: ping", timestamp := none }]

/-- The log with the ignore-matching well-formed entries removed. -/
def drop_ignored (ips : List String) (log : List (Option LogEntry)) :
    List (Option LogEntry) :=
  log.filter fun e =>
    match e with
    | some e => !(ips.any fun p => str_startsWith e.message p)
    | none => true

def c5wspec : TherapydriftSpec := TherapydriftSpec.from_raw { schema := some 1 }

def c5wtask : Task :=
  sampleTask [sampleEntry "Therapydrift: yellow (repeated_drift_signals)" 36000,
    sampleEntry "Speedrift: yellow (scope_drift)" 36060]

def c5wsig : LogEntry :=
  { message := "Speedrift: yellow (scope_drift)", timestamp := some (Ts.valid 36060) }

/-- Configuration for the C6 counterexample: an empty follow-up id
pattern, which every id — including the empty id — starts with. -/
def c6spec : TherapydriftSpec :=
  TherapydriftSpec.from_raw { followup_prefixes := some [""] }

/-- A record with an empty id satisfying every condition C6 lists. -/
def c6anon : Task :=
  { id := "", title := "", status := "open", blocked_by := ["t1"], log := [] }

/-! ## Theorems -/

/-- C7: every spec built by `TherapydriftSpec.from_raw` satisfies the
data-model invariant — `cooldown_seconds ≥ 0`,
`max_auto_actions_per_hour ≥ 0`, `min_new_signals ≥ 0`,
`min_signal_count ≥ 1`, `circuit_breaker_after ≥ 1` (negative
durations/counts clamp to 0, sub-1 thresholds clamp to 1) — and a raw
mapping with every field absent yields the documented defaults. -/
theorem c7_from_raw_invariant_and_defaults (raw : RawSpec) :
    0 ≤ (TherapydriftSpec.from_raw raw).cooldown_seconds ∧
    0 ≤ (TherapydriftSpec.from_raw raw).max_auto_actions_per_hour ∧
    0 ≤ (TherapydriftSpec.from_raw raw).min_new_signals ∧
    1 ≤ (TherapydriftSpec.from_raw raw).min_signal_count ∧
    1 ≤ (TherapydriftSpec.from_raw raw).circuit_breaker_after ∧
    TherapydriftSpec.from_raw {} =
      { schema := 1, min_signal_count := 2,
        followup_prefixes := ["drift-", "speedrift-pit-"],
        require_recovery_plan := true,
        ignore_signal_prefixes := ["Therapydrift:"],
        cooldown_seconds := 1800, max_auto_actions_per_hour := 2,
        min_new_signals := 1, circuit_breaker_after := 6 } := by
  unfold TherapydriftSpec.from_raw
  refine ⟨?_, ?_, ?_, ?_, ?_, rfl⟩ <;> dsimp only <;> split <;> omega

/-- C8: when the task's therapydrift block is present but malformed,
`cmd_wg_check` still returns a report (not fatal) with a single
warn-severity parse-error finding and a yellow score, the auto-action
policy is not evaluated, no action fires, and the automation state is
left untouched. -/
theorem c8_parse_error_not_fatal (task_id : String) (task : Task)
    (tasks : List (String × Task)) (state : List (String × TaskState))
    (now : Int) (create_followups : Bool) :
    cmd_wg_check SpecBlock.malformed task_id task tasks state now create_followups =
      { score := "yellow",
        findings := [{ kind := "invalid_therapydrift_spec", severity := "warn",
                       summary := "therapydrift block present but could not be parsed" }],
        policy := none, action_created := false, state := state, exit_code := 3 } := rfl

/-- C10: the decision record of `evaluate_auto_action_policy` is
internally consistent: `allow_auto_action` holds iff the reason is
`allowed`, and an open circuit breaker together with actionable
findings forces `allow_auto_action = false`. -/
theorem c10_decision_internally_consistent (spec : TherapydriftSpec)
    (findings : List Finding) (telemetry : Telemetry) (task_state : TaskState)
    (now : Int) :
    ((evaluate_auto_action_policy spec findings telemetry task_state now).allow_auto_action = true ↔
      (evaluate_auto_action_policy spec findings telemetry task_state now).reason = "allowed") ∧
    ((evaluate_auto_action_policy spec findings telemetry task_state now).circuit_breaker_open = true →
      (evaluate_auto_action_policy spec findings telemetry task_state now).has_actionable_findings = true →
      (evaluate_auto_action_policy spec findings telemetry task_state now).allow_auto_action = false) := by
  unfold evaluate_auto_action_policy
  dsimp only
  split_ifs <;> simp_all

/-- C10 witness: at the circuit-breaker scenario (threshold 2, two
prior actions, one actionable finding) the breaker is open, findings
are actionable, and the theorem yields `allow_auto_action = false`. -/
theorem c10_decision_internally_consistent_witness :
    (evaluate_auto_action_policy
      (TherapydriftSpec.from_raw { circuit_breaker_after := some 2 })
      [sampleFinding "missing_recovery_plan"] (sampleTelemetry 3 [])
      { auto_action_total := 2 } 0).allow_auto_action = false :=
  (c10_decision_internally_consistent
      (TherapydriftSpec.from_raw { circuit_breaker_after := some 2 })
      [sampleFinding "missing_recovery_plan"] (sampleTelemetry 3 [])
      { auto_action_total := 2 } 0).2 (by decide) (by decide)

/-- Every finding built by `findings_of` has severity `warn`. -/
lemma findings_of_all_warn (spec : TherapydriftSpec) (drift_signals : List LogEntry)
    (open_followups : List String) (therapy_task_id : String) (therapy_exists : Bool) :
    ∀ f ∈ findings_of spec drift_signals open_followups therapy_task_id therapy_exists,
      f.severity = "warn" := by
  unfold findings_of
  dsimp only
  split_ifs <;> intro f hf <;> simp_all <;> rcases hf with hf | hf | hf | hf <;> simp_all

/-- On an all-warn finding list, `score_of` is `green` iff the list is
empty, `yellow` otherwise. -/
lemma score_of_all_warn (findings : List Finding)
    (h : ∀ f ∈ findings, f.severity = "warn") :
    score_of findings = if findings = [] then "green" else "yellow" := by
  unfold score_of
  cases findings with
  | nil => simp
  | cons f fs =>
    have hferr : ∀ g ∈ f :: fs, ¬ g.severity = "error" := by
      intro g hg
      rw [h g hg]
      decide
    have hwarn : ((f :: fs).any fun g => g.severity = "warn") = true := by
      simp only [List.any_eq_true]
      exact ⟨f, List.mem_cons_self f fs, by simp [h f (List.mem_cons_self f fs)]⟩
    have herr : ((f :: fs).any fun g => g.severity = "error") = false := by
      simp only [List.any_eq_false, decide_eq_true_eq]
      exact hferr
    simp [hwarn, herr]

/-- C9: every finding `compute_therapy_drift` produces carries
severity `warn`, so the report's score is never `red`: it is `green`
exactly when the finding list is empty and `yellow` otherwise. -/
theorem c9_findings_all_warn_score_never_red (task_id task_title : String)
    (spec : TherapydriftSpec) (task : Task) (tasks : List (String × Task))
    (prev : Option Ts) :
    (∀ f ∈ (compute_therapy_drift task_id task_title spec task tasks prev).findings,
      f.severity = "warn") ∧
    (compute_therapy_drift task_id task_title spec task tasks prev).score =
      (if (compute_therapy_drift task_id task_title spec task tasks prev).findings = []
       then "green" else "yellow") := by
  have hf : (compute_therapy_drift task_id task_title spec task tasks prev).findings =
      findings_of spec (extract_signals spec.ignore_signal_prefixes task.log).1
        (sorted_set (open_followups_raw task_id spec.followup_prefixes tasks))
        ("drift-therapy-" ++ task_id)
        (therapy_exists_of tasks ("drift-therapy-" ++ task_id)) := rfl
  have hs : (compute_therapy_drift task_id task_title spec task tasks prev).score =
      score_of (compute_therapy_drift task_id task_title spec task tasks prev).findings := rfl
  refine ⟨?_, ?_⟩
  · rw [hf]
    exact findings_of_all_warn _ _ _ _ _
  · rw [hs]
    apply score_of_all_warn
    rw [hf]
    exact findings_of_all_warn _ _ _ _ _

/-- C9 witness: a schema-2 spec on a log-less task yields a non-empty
finding list; the theorem then gives a warn severity for the schema
finding and a `yellow` score. -/
theorem c9_findings_all_warn_score_never_red_witness :
    (compute_therapy_drift "t1" "Task" (TherapydriftSpec.from_raw { schema := some 2 })
        (sampleTask []) [] none).score = "yellow" ∧
    ({ kind := "unsupported_schema", severity := "warn",
       summary := "Unsupported therapydrift schema (expected 1)" } : Finding).severity =
      "warn" := by
  constructor
  · rw [(c9_findings_all_warn_score_never_red "t1" "Task"
      (TherapydriftSpec.from_raw { schema := some 2 }) (sampleTask []) [] none).2]
    decide
  · exact (c9_findings_all_warn_score_never_red "t1" "Task"
      (TherapydriftSpec.from_raw { schema := some 2 }) (sampleTask []) [] none).1 _
      (by decide)

/-- C3: `new_signal_count` in the report's telemetry counts exactly
the non-ignored drift signals whose timestamp parses and exceeds the
previous latest-signal timestamp when that timestamp is present and
parseable; when it is absent it equals the total drift-signal count
(unparseable signal timestamps are excluded from the comparison but
counted in the total). -/
theorem c3_new_signal_count_semantics (task_id task_title : String)
    (spec : TherapydriftSpec) (task : Task) (tasks : List (String × Task)) (p : Int) :
    (compute_therapy_drift task_id task_title spec task tasks
        (some (Ts.valid p))).telemetry.new_signal_count =
      ((extract_signals spec.ignore_signal_prefixes task.log).1.filter fun s =>
        match parse_ts s.timestamp with
        | some t => decide (t > p)
        | none => false).length ∧
    (compute_therapy_drift task_id task_title spec task tasks none).telemetry.new_signal_count =
      (extract_signals spec.ignore_signal_prefixes task.log).1.length ∧
    (compute_therapy_drift task_id task_title spec task tasks
        (some (Ts.valid p))).telemetry.drift_signal_count =
      (extract_signals spec.ignore_signal_prefixes task.log).1.length := by
  refine ⟨?_, rfl, rfl⟩
  have h : (compute_therapy_drift task_id task_title spec task tasks
      (some (Ts.valid p))).telemetry.new_signal_count =
      (extract_signals spec.ignore_signal_prefixes task.log).1.countP fun s =>
        match parse_ts s.timestamp with
        | some t => decide (t > p)
        | none => false := rfl
  rw [h, List.countP_eq_length_filter]

/-- The `repeated_drift_signals` rule of `findings_of`: it appears in
the output iff the signal count reaches the threshold, and it always
carries the last five signals in its details. -/
lemma findings_of_repeated_rule (spec : TherapydriftSpec) (drift_signals : List LogEntry)
    (open_followups : List String) (therapy_task_id : String) (therapy_exists : Bool) :
    ((∃ f ∈ findings_of spec drift_signals open_followups therapy_task_id therapy_exists,
        f.kind = "repeated_drift_signals") ↔
      (drift_signals.length : Int) ≥ spec.min_signal_count) ∧
    (∀ f ∈ findings_of spec drift_signals open_followups therapy_task_id therapy_exists,
      f.kind = "repeated_drift_signals" →
        f.details = some (Details.recent_signals (lastN 5 drift_signals))) := by
  unfold findings_of
  dsimp only
  split_ifs <;> constructor <;> simp_all

/-- C4: the `repeated_drift_signals` finding fires exactly when the
count of non-ignored drift signals reaches `min_signal_count`, and
when it fires its details hold exactly the last five signals. -/
theorem c4_repeated_drift_signals_threshold (task_id task_title : String)
    (spec : TherapydriftSpec) (task : Task) (tasks : List (String × Task))
    (prev : Option Ts) :
    ((∃ f ∈ (compute_therapy_drift task_id task_title spec task tasks prev).findings,
        f.kind = "repeated_drift_signals") ↔
      ((extract_signals spec.ignore_signal_prefixes task.log).1.length : Int) ≥
        spec.min_signal_count) ∧
    (∀ f ∈ (compute_therapy_drift task_id task_title spec task tasks prev).findings,
      f.kind = "repeated_drift_signals" →
        f.details = some (Details.recent_signals
          (lastN 5 (extract_signals spec.ignore_signal_prefixes task.log).1))) := by
  have hf : (compute_therapy_drift task_id task_title spec task tasks prev).findings =
      findings_of spec (extract_signals spec.ignore_signal_prefixes task.log).1
        (sorted_set (open_followups_raw task_id spec.followup_prefixes tasks))
        ("drift-therapy-" ++ task_id)
        (therapy_exists_of tasks ("drift-therapy-" ++ task_id)) := rfl
  rw [hf]
  exact findings_of_repeated_rule spec _ _ _ _

/-- C4 witness: with `min_signal_count = 2` and exactly two matching
drift signals, the theorem's forward direction produces the
`repeated_drift_signals` finding and its details equation holds at
the member finding. -/
theorem c4_repeated_drift_signals_threshold_witness :
    (∃ f ∈ (compute_therapy_drift "t1" "Task" c4spec c4task [] none).findings,
      f.kind = "repeated_drift_signals") ∧
    c4finding.details = some (Details.recent_signals
      (lastN 5 (extract_signals c4spec.ignore_signal_prefixes c4task.log).1)) := by
  constructor
  · exact (c4_repeated_drift_signals_threshold "t1" "Task" c4spec c4task [] none).1.mpr
      (by decide)
  · exact (c4_repeated_drift_signals_threshold "t1" "Task" c4spec c4task [] none).2
      c4finding (by decide) (by decide)

/-- Actionable-kind membership in the code's three-element list agrees
with the claim's explicit disjunction of kinds. -/
lemma any_kind_mem_actionable (findings : List Finding) :
    ((findings.map fun f => f.kind).any fun k => k ∈ actionable_kinds) =
      (findings.any fun f =>
        f.kind = "repeated_drift_signals" ∨ f.kind = "unresolved_drift_followups" ∨
        f.kind = "missing_recovery_plan") := by
  induction findings with
  | nil => rfl
  | cons f fs ih =>
    simp only [List.map_cons, List.any_cons, ih]
    congr 1
    simp [actionable_kinds, decide_eq_decide]

/-- The code's match on the optional last action time agrees with the
claim's "a last action time exists and ..." form. -/
lemma cooldown_match_eq_any (l : Option Int) (cd now : Int) :
    (match l with
     | some last => decide (cd > 0 ∧ now - last < cd)
     | none => false) =
    (l.any fun last => decide (cd > 0) && decide (now - last < cd)) := by
  cases l <;> simp [Option.any, Bool.decide_and]

/-- C1: the auto-action policy decision (allow flag and reason) equals
the first-matching-rule chain exactly as the specification states it. -/
theorem c1_policy_equals_spec_chain (spec : TherapydriftSpec) (findings : List Finding)
    (telemetry : Telemetry) (task_state : TaskState) (now : Int) :
    ((evaluate_auto_action_policy spec findings telemetry task_state now).allow_auto_action,
     (evaluate_auto_action_policy spec findings telemetry task_state now).reason) =
    policy_decision_per_spec spec findings telemetry task_state now := by
  unfold evaluate_auto_action_policy policy_decision_per_spec
  dsimp only
  simp only [any_kind_mem_actionable, cooldown_match_eq_any]
  split_ifs <;> first
  | rfl
  | (simp_all; omega)
  | simp_all

/-- C2 counterexample: the prior stored latest-seen-signal timestamp
parses to 100 and the current evaluation's latest signal timestamp to
the older instant 50 — no newer signal was observed — yet the state
updater overwrites the stored value, so "updated only if a newer
signal timestamp was observed" fails. -/
theorem c2_counterexample :
    parse_ts c2cur.latest_signal_ts = some 100 ∧
    parse_ts c2tel.latest_signal_ts = some 50 ∧
    (50 : Int) < 100 ∧
    (update_task_state c2cur c2tel c2pol false 200).latest_signal_ts =
      some (Ts.valid 50) ∧
    (update_task_state c2cur c2tel c2pol false 200).latest_signal_ts ≠
      c2cur.latest_signal_ts := by
  refine ⟨rfl, rfl, by decide, rfl, by decide⟩

/-- C2 (amended): the state updater overwrites the stored latest-seen
signal timestamp with the current evaluation's latest signal timestamp
whenever the current evaluation observed one — newer or not — and
leaves the stored value unchanged exactly when the current evaluation
observed no parseable signal timestamp. -/
theorem c2_latest_signal_overwrite (cur : TaskState) (tel : Telemetry)
    (pol : PolicyDecision) (action_created : Bool) (now : Int) :
    (tel.latest_signal_ts = none →
      (update_task_state cur tel pol action_created now).latest_signal_ts =
        cur.latest_signal_ts) ∧
    (∀ ts, tel.latest_signal_ts = some ts →
      (update_task_state cur tel pol action_created now).latest_signal_ts = some ts) := by
  constructor
  · intro h
    simp [update_task_state, h]
  · intro ts h
    simp [update_task_state, h]

/-- C2 witness: the amended theorem applied at the counterexample
telemetry (overwrite case) and at the same telemetry with no latest
signal timestamp (unchanged case). -/
theorem c2_latest_signal_overwrite_witness :
    (update_task_state c2cur { c2tel with latest_signal_ts := none } c2pol false
      200).latest_signal_ts = c2cur.latest_signal_ts ∧
    (update_task_state c2cur c2tel c2pol false 200).latest_signal_ts =
      some (Ts.valid 50) :=
  ⟨(c2_latest_signal_overwrite c2cur { c2tel with latest_signal_ts := none } c2pol
      false 200).1 rfl,
   (c2_latest_signal_overwrite c2cur c2tel c2pol false 200).2 (Ts.valid 50) rfl⟩

/-- C5 counterexample: the log message `Selfcheck: ping` matches the
configured ignore prefix, yet `ignored_self_signals` stays 0 (the code
only tallies ignored messages that also carry a drift-category
prefix), so "every such ignored message is counted in the
ignored_self_signals telemetry field" fails. -/
theorem c5_counterexample :
    c5spec.ignore_signal_prefixes = ["Selfcheck:"] ∧
    str_startsWith "Selfcheck: ping" "Selfcheck:" = true ∧
    (compute_therapy_drift "t1" "Task" c5spec c5task [] none).telemetry.ignored_self_signals
      = 0 := by
  refine ⟨rfl, by decide, rfl⟩

/-- Dropping the ignore-matching entries from the log leaves the kept
drift-signal list of `extract_signals` unchanged: ignore-matching
messages never contribute a signal. -/
lemma extract_signals_drop_ignored (ips : List String) (log : List (Option LogEntry)) :
    (extract_signals ips (drop_ignored ips log)).1 = (extract_signals ips log).1 := by
  induction log with
  | nil => rfl
  | cons e rest ih =>
    cases e with
    | none =>
      have hcons : drop_ignored ips (none :: rest) = none :: drop_ignored ips rest := by
        simp [drop_ignored]
      rw [hcons]
      simpa [extract_signals] using ih
    | some e =>
      by_cases hig : (ips.any fun p => str_startsWith e.message p) = true
      · have hcons : drop_ignored ips (some e :: rest) = drop_ignored ips rest := by
          simp [drop_ignored, hig]
        rw [hcons, ih]
        by_cases hdr : (DRIFT_PREFIXES.any fun p => str_startsWith e.message p) = true <;>
          simp [extract_signals, hdr, hig]
      · have hcons : drop_ignored ips (some e :: rest) = some e :: drop_ignored ips rest := by
          simp [drop_ignored, hig]
        rw [hcons]
        by_cases hdr : (DRIFT_PREFIXES.any fun p => str_startsWith e.message p) = true <;>
          simp [extract_signals, hdr, hig, ih]

/-- No signal kept by `extract_signals` matches an ignore prefix. -/
lemma extract_signals_not_ignored (ips : List String) (log : List (Option LogEntry)) :
    ∀ s ∈ (extract_signals ips log).1,
      (ips.any fun p => str_startsWith s.message p) = false := by
  induction log with
  | nil => intro s hs; simp [extract_signals] at hs
  | cons e rest ih =>
    cases e with
    | none => simpa [extract_signals] using ih
    | some e =>
      by_cases hdr : (DRIFT_PREFIXES.any fun p => str_startsWith e.message p) = true
      · by_cases hig : (ips.any fun p => str_startsWith e.message p) = true
        · intro s hs
          have h : (extract_signals ips (some e :: rest)).1 =
              (extract_signals ips rest).1 := by
            simp [extract_signals, hdr, hig]
          rw [h] at hs
          exact ih s hs
        · intro s hs
          have h : (extract_signals ips (some e :: rest)).1 =
              ⟨e.message, e.timestamp⟩ :: (extract_signals ips rest).1 := by
            simp [extract_signals, hdr, hig]
          rw [h] at hs
          rcases List.mem_cons.mp hs with h1 | h1
          · subst h1
            simpa using hig
          · exact ih s h1
      · intro s hs
        have h : (extract_signals ips (some e :: rest)).1 =
            (extract_signals ips rest).1 := by
          simp [extract_signals, hdr]
        rw [h] at hs
        exact ih s hs

/-- The ignored-self-signal tally of `extract_signals` counts exactly
the well-formed log entries carrying both a drift-category prefix and
an ignore prefix. -/
lemma extract_signals_ignored_count (ips : List String) (log : List (Option LogEntry)) :
    (extract_signals ips log).2 =
      (log.filterMap id).countP fun e =>
        (DRIFT_PREFIXES.any fun p => str_startsWith e.message p) &&
        (ips.any fun p => str_startsWith e.message p) := by
  induction log with
  | nil => rfl
  | cons e rest ih =>
    cases e with
    | none => simpa [extract_signals] using ih
    | some e =>
      by_cases hdr : (DRIFT_PREFIXES.any fun p => str_startsWith e.message p) = true <;>
        by_cases hig : (ips.any fun p => str_startsWith e.message p) = true <;>
          simp [extract_signals, List.countP_cons, hdr, hig, ih]

/-- C5 (amended): messages matching an ignore prefix never contribute
to `drift_signal_count` or `new_signal_count` — no kept signal matches
an ignore prefix, and deleting the ignore-matching log entries leaves
the kept signal list (hence both counts) unchanged — and
`ignored_self_signals` tallies exactly the ignored messages that also
carry a drift-category prefix. -/
theorem c5_self_signals_never_counted (task_id task_title : String)
    (spec : TherapydriftSpec) (task : Task) (tasks : List (String × Task))
    (prev : Option Ts) :
    (∀ s ∈ (extract_signals spec.ignore_signal_prefixes task.log).1,
      (spec.ignore_signal_prefixes.any fun p => str_startsWith s.message p) = false) ∧
    (extract_signals spec.ignore_signal_prefixes
      (drop_ignored spec.ignore_signal_prefixes task.log)).1 =
      (extract_signals spec.ignore_signal_prefixes task.log).1 ∧
    (compute_therapy_drift task_id task_title spec task tasks
        prev).telemetry.ignored_self_signals =
      (task.log.filterMap id).countP (fun e =>
        (DRIFT_PREFIXES.any fun p => str_startsWith e.message p) &&
        (spec.ignore_signal_prefixes.any fun p => str_startsWith e.message p)) := by
  refine ⟨extract_signals_not_ignored _ _, extract_signals_drop_ignored _ _, ?_⟩
  have h : (compute_therapy_drift task_id task_title spec task tasks
      prev).telemetry.ignored_self_signals =
      (extract_signals spec.ignore_signal_prefixes task.log).2 := rfl
  rw [h, extract_signals_ignored_count]

/-- C5 witness: at a log holding one ignored self-signal and one kept
drift signal, the theorem instantiates: the kept signal does not match
the ignore prefix and the tally counts the one ignored drift-prefixed
message. -/
theorem c5_self_signals_never_counted_witness :
    (c5wspec.ignore_signal_prefixes.any fun p => str_startsWith c5wsig.message p) = false ∧
    (compute_therapy_drift "t1" "Task" c5wspec c5wtask []
      none).telemetry.ignored_self_signals = 1 := by
  constructor
  · exact (c5_self_signals_never_counted "t1" "Task" c5wspec c5wtask [] none).1 c5wsig
      (by decide)
  · rw [(c5_self_signals_never_counted "t1" "Task" c5wspec c5wtask [] none).2.2]
    decide

/-- Element-level characterization of the follow-up collection loop:
the record `t` contributes the id `i` exactly when `i` is `t`'s id and
every condition of the loop holds. -/
lemma followup_fn_eq_some (task_id : String) (followup_prefixes : List String)
    (t : Task) (i : String) :
    (if t.id = "" ∨ t.id = task_id then none
     else if ¬ is_open_status t.status then none
     else if task_id ∉ t.blocked_by then none
     else if followup_prefixes.any (fun p => str_startsWith t.id p) then some t.id
     else none) = some i ↔
      t.id = i ∧ i ≠ "" ∧ i ≠ task_id ∧ is_open_status t.status = true ∧
      task_id ∈ t.blocked_by ∧
      (followup_prefixes.any fun p => str_startsWith i p) = true := by
  constructor
  · intro h
    split_ifs at h with h1 h2 h3 h4
    have hid := Option.some.inj h
    subst hid
    push_neg at h1
    exact ⟨rfl, h1.1, h1.2, by simpa using h2, by simpa using h3, h4⟩
  · rintro ⟨hid, hne, hnid, hst, hbl, hpat⟩
    subst hid
    rw [if_neg (by simp [hne, hnid]), if_neg (by simp [hst]), if_neg (by simp [hbl]),
      if_pos hpat]

/-- Membership in the raw follow-up list. -/
lemma mem_open_followups_raw (task_id : String) (followup_prefixes : List String)
    (tasks : List (String × Task)) (i : String) :
    i ∈ open_followups_raw task_id followup_prefixes tasks ↔
      i ≠ "" ∧ i ≠ task_id ∧ ∃ t ∈ tasks.map Prod.snd, t.id = i ∧
        is_open_status t.status = true ∧ task_id ∈ t.blocked_by ∧
        (followup_prefixes.any fun p => str_startsWith i p) = true := by
  unfold open_followups_raw
  rw [List.mem_filterMap]
  constructor
  · rintro ⟨t, ht, h⟩
    rw [followup_fn_eq_some] at h
    rcases h with ⟨hid, hne, hnid, hst, hbl, hpat⟩
    exact ⟨hne, hnid, t, ht, hid, hst, hbl, hpat⟩
  · rintro ⟨hne, hnid, t, ht, hid, hst, hbl, hpat⟩
    refine ⟨t, ht, ?_⟩
    rw [followup_fn_eq_some]
    exact ⟨hid, hne, hnid, hst, hbl, hpat⟩

/-- C6 (amended): the follow-up list is sorted and duplicate-free, its
members are exactly the non-empty ids distinct from the subject that
belong to an open/in-progress record blocked by the subject and match
a configured follow-up id pattern, telemetry's `open_followup_ids`
holds its first 50 entries and `open_drift_followups` its full
length. -/
theorem c6_followup_tracker (task_id task_title : String) (spec : TherapydriftSpec)
    (task : Task) (tasks : List (String × Task)) (prev : Option Ts) :
    List.Sorted (· ≤ ·)
      (sorted_set (open_followups_raw task_id spec.followup_prefixes tasks)) ∧
    (sorted_set (open_followups_raw task_id spec.followup_prefixes tasks)).Nodup ∧
    (∀ i, i ∈ sorted_set (open_followups_raw task_id spec.followup_prefixes tasks) ↔
      i ≠ "" ∧ i ≠ task_id ∧ ∃ t ∈ tasks.map Prod.snd, t.id = i ∧
        is_open_status t.status = true ∧ task_id ∈ t.blocked_by ∧
        (spec.followup_prefixes.any fun p => str_startsWith i p) = true) ∧
    (compute_therapy_drift task_id task_title spec task tasks prev).telemetry.open_followup_ids =
      (sorted_set (open_followups_raw task_id spec.followup_prefixes tasks)).take 50 ∧
    (compute_therapy_drift task_id task_title spec task tasks prev).telemetry.open_drift_followups =
      (sorted_set (open_followups_raw task_id spec.followup_prefixes tasks)).length := by
  refine ⟨?_, ?_, ?_, rfl, rfl⟩
  · exact @List.sorted_insertionSort String (· ≤ ·) strLEDec _ _ _
  · exact (@List.perm_insertionSort String (· ≤ ·) strLEDec _).nodup_iff.mpr
      (List.nodup_dedup _)
  · intro i
    unfold sorted_set
    rw [(@List.perm_insertionSort String (· ≤ ·) strLEDec _).mem_iff, List.mem_dedup,
      mem_open_followups_raw]

/-- C6 counterexample: the empty-id record has open status, is blocked
by the subject, its id differs from the subject's and starts with a
configured pattern — every condition the claim lists — yet the
computed follow-up list omits it (the code also requires a non-empty
id), so "exactly those task ids" fails. -/
theorem c6_counterexample :
    is_open_status c6anon.status = true ∧
    "t1" ∈ c6anon.blocked_by ∧
    c6anon.id ≠ "t1" ∧
    (c6spec.followup_prefixes.any fun p => str_startsWith c6anon.id p) = true ∧
    sorted_set (open_followups_raw "t1" c6spec.followup_prefixes [("k", c6anon)]) = [] ∧
    (compute_therapy_drift "t1" "Task" c6spec (sampleTask [])
      [("k", c6anon)] none).telemetry.open_drift_followups = 0 := by
  refine ⟨rfl, by decide, by decide, by decide, by decide, rfl⟩

end Therapydrift
